import Mathlib

/-!
# Verification of the M1WEngine movement / collision / NPC-brain core

A shallow embedding of the movement, collision and autonomous-behaviour core of
the M1WEngine repository, together with theorems settling the claims of the
specification against it.

Conventions of the embedding:
* pygame rectangles are modelled as integer `Rect`s (`x`, `y`, `w`, `h`);
  `centerx = x + w / 2` mirrors pygame's integer halving (widths and heights of
  all rectangles in play are non-negative, where the conventions coincide).
* compass headings and fractional movement trackers are exact rationals `ℚ`
  (the Python code uses floats; all values the claims exercise are exactly
  representable, and exact arithmetic is the reference semantics).
* wall-clock time (`time.perf_counter()`, a non-negative float) is a rational
  parameter `now : ℚ` passed to every function that reads the clock; Python's
  `int(...)` truncation is `intTrunc`.
* a Python method that can raise becomes a function into `Option`
  (`none` = the call raised).
* mutation of `self` becomes explicit state passing on the `Actor` structure,
  which flattens the `Tile → Entity → Character → NPC` hierarchy into a single
  record; each method is defined in a namespace matching the class it comes
  from.
-/

namespace M1W

/-- pygame `Rect`: integer position and size. -/
structure Rect where
  x : ℤ
  y : ℤ
  w : ℤ
  h : ℤ
  deriving DecidableEq, Repr

namespace Rect

def left (r : Rect) : ℤ := r.x
def right (r : Rect) : ℤ := r.x + r.w
def top (r : Rect) : ℤ := r.y
def bottom (r : Rect) : ℤ := r.y + r.h
/-- pygame `rect.centerx` (integer halving of the width). -/
def centerx (r : Rect) : ℤ := r.x + r.w / 2
/-- pygame `rect.centery`. -/
def centery (r : Rect) : ℤ := r.y + r.h / 2
/-- pygame `rect.center`. -/
def center (r : Rect) : ℤ × ℤ := (r.centerx, r.centery)

/-- pygame `rect.move_ip(dx, dy)`. -/
def move_ip (r : Rect) (dx dy : ℤ) : Rect := { r with x := r.x + dx, y := r.y + dy }

/-- pygame `rect.center = (cx, cy)` assignment. -/
def setCenter (r : Rect) (cx cy : ℤ) : Rect :=
  { r with x := cx - r.w / 2, y := cy - r.h / 2 }

/-- pygame `Rect.colliderect`: true overlap; rectangles that merely share an
edge (or have zero size) do not collide. -/
def colliderect (a b : Rect) : Bool :=
  a.x < b.x + b.w && b.x < a.x + a.w && a.y < b.y + b.h && b.y < a.y + a.h

/-- pygame `Rect.collidelistall`: the indices (in order) of all rectangles in
the list that collide with `r`. -/
def collidelistall (r : Rect) (rs : List Rect) : List ℕ :=
  (List.range rs.length).filter fun i => colliderect r (rs.getD i ⟨0, 0, 0, 0⟩)

end Rect

/-- A 2-d vector with exact rational components (pygame `Vector2`). -/
structure Vec2 where
  x : ℚ
  y : ℚ
  deriving DecidableEq, Repr

namespace Vec2

/-- pygame `Vector2.reflect n`: `v - 2 (v·n)/(n·n) n`. -/
def reflect (v n : Vec2) : Vec2 :=
  let d : ℚ := (v.x * n.x + v.y * n.y) / (n.x * n.x + n.y * n.y)
  ⟨v.x - 2 * d * n.x, v.y - 2 * d * n.y⟩

end Vec2

-- The values of the `Direction` IntEnum, used for compass components.
namespace Direction

def up : ℚ := -1
def down : ℚ := 1
def left : ℚ := -1
def right : ℚ := 1
def stop : ℚ := 0

end Direction

/-- A sprite as seen by collision and radar code: its display rectangle and its
hitbox. -/
structure Sprite where
  rect : Rect
  hitbox : Rect
  deriving DecidableEq, Repr

/-- The NPC state machine's states (the per-instance
`Enum("states", [...])` of `NPC.__init__`). -/
inductive State where
  | Default
  | Patrol
  | Attack
  | Flee
  | Follow
  | Thrown
  | Tracking
  | Charging
  deriving DecidableEq, Repr

/-- The mutable state of one actor.  The Python classes `Tile`, `Entity`,
`Character`, `NPC` form an inheritance chain over one `self`; the embedding
flattens their fields into a single record.  Methods are defined in the
namespace of the class that declares them. -/
structure Actor where
  rect : Rect
  hitbox : Rect
  radar : Rect
  compass : Vec2
  /-- `_movement_tracker["horizontal"]`. -/
  tracker_h : ℚ
  /-- `_movement_tracker["vertical"]`. -/
  tracker_v : ℚ
  speed : ℤ
  status : String
  current_state : State
  /-- `_last_time_stored`; the code stores raw `perf_counter()` values here. -/
  last_time_stored : ℚ
  initial_tracking_time : ℤ
  initial_charge_time : ℤ
  initial_charge_compass : Vec2
  target_sprite : Option Sprite
  obstacle_sprites : List Sprite
  deriving DecidableEq, Repr

/-- `NPC.DEFAULT_SPEED`. -/
def DEFAULT_SPEED : ℤ := 1
/-- `NPC.DEFAULT_SPEED_FAST`. -/
def DEFAULT_SPEED_FAST : ℤ := 5
/-- `NPC.DEFAULT_SPEED_ZERO`. -/
def DEFAULT_SPEED_ZERO : ℤ := 0
/-- `NPC.DEFAULT_TIMER_VALUE`. -/
def DEFAULT_TIMER_VALUE : ℤ := -1
/-- `NPC.TRACKING_TIMER_SECONDS`. -/
def TRACKING_TIMER_SECONDS : ℤ := 2
/-- `NPC.CHARGING_TIMER_SECONDS`. -/
def CHARGING_TIMER_SECONDS : ℤ := 3

namespace Tile

/-- `Tile.update_movement_tracker`: integrate the compass into the
movement accumulator. -/
def update_movement_tracker (a : Actor) : Actor :=
  { a with tracker_h := a.tracker_h + a.compass.x,
           tracker_v := a.tracker_v + a.compass.y }

/-- `Tile._move_left`: unconditional pixel nudge; re-syncs the hitbox centre to
the display rectangle's centre. -/
def _move_left (speed : ℤ) (a : Actor) : Actor :=
  let rect := a.rect.move_ip (-1 * speed) 0
  { a with rect := rect, hitbox := a.hitbox.setCenter rect.centerx rect.centery }

/-- `Tile._move_right`. -/
def _move_right (speed : ℤ) (a : Actor) : Actor :=
  let rect := a.rect.move_ip speed 0
  { a with rect := rect, hitbox := a.hitbox.setCenter rect.centerx rect.centery }

/-- `Tile._move_up`. -/
def _move_up (speed : ℤ) (a : Actor) : Actor :=
  let rect := a.rect.move_ip 0 (-1 * speed)
  { a with rect := rect, hitbox := a.hitbox.setCenter rect.centerx rect.centery }

/-- `Tile._move_down`. -/
def _move_down (speed : ℤ) (a : Actor) : Actor :=
  let rect := a.rect.move_ip 0 speed
  { a with rect := rect, hitbox := a.hitbox.setCenter rect.centerx rect.centery }

/-- `Tile.move_right`: sets the compass to `(Direction.right, 0)` and nudges
right. -/
def move_right (speed : ℤ) (a : Actor) : Actor :=
  _move_right speed { a with compass := ⟨Direction.right, 0⟩ }

/-- `Tile.move_left`.  The source sets `self._compass.x = Direction.right`
(not `Direction.left`) before nudging left. -/
def move_left (speed : ℤ) (a : Actor) : Actor :=
  _move_left speed { a with compass := ⟨Direction.right, 0⟩ }

/-- `Tile.move_up`. -/
def move_up (speed : ℤ) (a : Actor) : Actor :=
  _move_up speed { a with compass := ⟨0, Direction.up⟩ }

/-- `Tile.move_down`. -/
def move_down (speed : ℤ) (a : Actor) : Actor :=
  _move_down speed { a with compass := ⟨0, Direction.down⟩ }

/-- `Tile.move`: integrate the compass, then fire at most one pixel step
(scaled by `speed`) per axis whose accumulator crossed ±1. -/
def move (speed : ℤ) (a : Actor) : Actor :=
  let a := update_movement_tracker a
  let a :=
    if a.tracker_v ≤ Direction.up then
      let a := _move_up speed a
      { a with tracker_v := a.tracker_v + Direction.down }
    else if a.tracker_v ≥ Direction.down then
      let a := _move_down speed a
      { a with tracker_v := a.tracker_v + Direction.up }
    else a
  if a.tracker_h ≤ Direction.left then
    let a := _move_left speed a
    { a with tracker_h := a.tracker_h + Direction.right }
  else if a.tracker_h ≥ Direction.right then
    let a := _move_right speed a
    { a with tracker_h := a.tracker_h + Direction.left }
  else a

end Tile

namespace Character

/-- The square of `Character.get_distance`.  The source computes
`math.hypot(coords[0] - self.rect[0], coords[1] - self.rect[1])` — the
Euclidean distance from the actor's rectangle *top-left corner*
(`rect[0], rect[1]` index `x` and `y`, not the centre) to the given
coordinates.  Distances are non-negative, so every comparison the code makes
between two `hypot` values coincides with the comparison of their squares;
the embedding therefore works with exact squared distances. -/
def get_distance_sq (a : Actor) (coords : ℤ × ℤ) : ℤ :=
  (coords.1 - a.rect.x) ^ 2 + (coords.2 - a.rect.y) ^ 2

/-- `Character.set_status_by_curr_rotation`: derive the facing-direction label
from the compass. -/
def set_status_by_curr_rotation (a : Actor) : Actor :=
  -- the source first assigns "up"/"down" from compass.y and immediately
  -- overwrites it with "left"/"right" from compass.x; only the second
  -- assignment survives
  let s := if a.compass.x < 0 then "left" else "right"
  let s := if a.compass.x > 0 ∧ a.compass.y < 1/4 ∧ a.compass.y > -(1/4) then "right" else s
  let s := if a.compass.x < 0 ∧ a.compass.y < 1/4 ∧ a.compass.y > -(1/4) then "left" else s
  let s := if a.compass.y > 0 ∧ a.compass.x < 1/4 ∧ a.compass.x > -(1/4) then "down" else s
  let s := if a.compass.y < 0 ∧ a.compass.x < 1/4 ∧ a.compass.x > -(1/4) then "up" else s
  { a with status := s }

/-- `Character.further_axis`: `"horizontal"` when the x-distance from the
actor's rect centre to the coordinate strictly exceeds the y-distance,
`"vertical"` otherwise (ties are vertical). -/
def further_axis (a : Actor) (coord : ℤ × ℤ) : String :=
  if |a.rect.centerx - coord.1| > |a.rect.centery - coord.2| then "horizontal"
  else "vertical"

/-- `Character.teleport_out_of_sprite` (the `Character` version): one-pixel
ejection of the *display rectangle only* along the dominant axis; the hitbox
is not touched. -/
def teleport_out_of_sprite (collision_rect : Rect) (a : Actor) : Actor :=
  if further_axis a (collision_rect.centerx, collision_rect.centery) = "horizontal" then
    if a.hitbox.centerx < collision_rect.centerx then
      if collision_rect.left - (a.hitbox.right + 1) < 0 then
        { a with rect := a.rect.move_ip (-1) 0 }
      else a
    else
      if collision_rect.right - (a.hitbox.left - 1) > 0 then
        { a with rect := a.rect.move_ip 1 0 }
      else a
  else
    if a.hitbox.centery < collision_rect.centery then
      if collision_rect.top - (a.hitbox.bottom + 1) < 0 then
        { a with rect := a.rect.move_ip 0 (-1) }
      else a
    else
      if collision_rect.bottom - (a.hitbox.top - 1) > 0 then
        { a with rect := a.rect.move_ip 0 1 }
      else a

/-- The `sorted_collisions` dictionary built by
`Character.collision_detection`: the detected flag and the per-side contact
coordinate lists. -/
structure CollisionReport where
  collision_detected : Bool
  left : List (ℤ × ℤ)
  right : List (ℤ × ℤ)
  up : List (ℤ × ℤ)
  down : List (ℤ × ℤ)
  deriving DecidableEq, Repr

def emptyReport : CollisionReport := ⟨false, [], [], [], []⟩

/-- The body of `collision_detection`'s `for collision_index in
collision_indicies` loop: classify the collided sprite's hitbox centre into a
side bucket using the actor's *current* centres, then immediately eject
(detection and resolution are interleaved).  The ejection step is the
dynamically dispatched `self.teleport_out_of_sprite`, passed in so that the
`Character` and `NPC` overrides share this loop. -/
def collision_loop (teleport : Rect → Actor → Actor) (obstacles : List Sprite) :
    List ℕ → CollisionReport × Actor → CollisionReport × Actor
  | [], acc => acc
  | i :: rest, (rep, a) =>
    let collided : Sprite := obstacles.getD i ⟨⟨0,0,0,0⟩, ⟨0,0,0,0⟩⟩
    let coord : ℤ × ℤ := (collided.hitbox.centerx, collided.hitbox.centery)
    let rep :=
      if further_axis a coord = "vertical" then
        if collided.hitbox.centery < a.hitbox.centery then
          { rep with up := rep.up ++ [coord] }
        else if collided.hitbox.centery > a.hitbox.centery then
          { rep with down := rep.down ++ [coord] }
        else rep
      else rep
    let rep :=
      if further_axis a coord = "horizontal" then
        if collided.hitbox.centerx < a.hitbox.centerx then
          { rep with left := rep.left ++ [coord] }
        else if collided.hitbox.centerx > a.hitbox.centerx then
          { rep with right := rep.right ++ [coord] }
        else rep
      else rep
    let a := teleport collided.hitbox a
    collision_loop teleport obstacles rest (rep, a)

/-- `Character.collision_detection(sprite_group)`: broad phase is
`self.rect.collidelistall(obstacle_sprites)` — pygame compares the actor's
*display rect* against each sprite's `.rect` attribute — then each collided
sprite is classified and ejected in turn.  Returns the report together with
the (possibly teleported) actor. -/
def collision_detection_with (teleport : Rect → Actor → Actor) (a : Actor) :
    CollisionReport × Actor :=
  let collision_indicies := a.rect.collidelistall (a.obstacle_sprites.map Sprite.rect)
  if collision_indicies.isEmpty then (emptyReport, a)
  else
    collision_loop teleport a.obstacle_sprites collision_indicies
      ({ emptyReport with collision_detected := true }, a)

def collision_detection (a : Actor) : CollisionReport × Actor :=
  collision_detection_with teleport_out_of_sprite a

/-- `Character.average_collision_coordinates`: arithmetic mean of the bucketed
contact coordinates ((0, 0) when there are none). -/
def average_collision_coordinates (rep : CollisionReport) : ℚ × ℚ :=
  let all := rep.left ++ rep.right ++ rep.up ++ rep.down
  let count : ℚ := all.length
  let sx : ℚ := (all.map fun c => (c.1 : ℚ)).sum
  let sy : ℚ := (all.map fun c => (c.2 : ℚ)).sum
  if count ≠ 0 then (sx / count, sy / count) else (0, 0)

/-- `Character.collision_set_compass(collided_coords)`: classify the average
contact point by dominant axis relative to the actor's rect centre and
reflect the compass only when it already points into the collided side. -/
def collision_set_compass (collided_coords : ℚ × ℚ) (a : Actor) : Actor :=
  let horizontal_reflect_vect : Vec2 := ⟨Direction.right, 0⟩
  let vertical_reflect_vect : Vec2 := ⟨0, Direction.down⟩
  let abs_distance_to_x : ℚ := |(a.rect.centerx : ℚ) - collided_coords.1|
  let abs_distance_to_y : ℚ := |(a.rect.centery : ℚ) - collided_coords.2|
  let distance_to_x : ℚ := collided_coords.1 - (a.rect.centerx : ℚ)
  let distance_to_y : ℚ := collided_coords.2 - (a.rect.centery : ℚ)
  if abs_distance_to_x > abs_distance_to_y then
    if distance_to_x > 0 then
      if a.compass.x > 0 then
        { a with compass := a.compass.reflect horizontal_reflect_vect }
      else a
    else
      if a.compass.x < 0 then
        { a with compass := a.compass.reflect horizontal_reflect_vect }
      else a
  else
    if distance_to_y < 0 then
      if a.compass.y < 0 then
        { a with compass := a.compass.reflect vertical_reflect_vect }
      else a
    else
      if a.compass.y > 0 then
        { a with compass := a.compass.reflect vertical_reflect_vect }
      else a

/-- `Character.collision_handler`: detect (with interleaved ejection), then
bounce the compass off the average contact point if anything was hit. -/
def collision_handler (a : Actor) : Actor :=
  let (collision_dictionary, a) := collision_detection a
  if collision_dictionary.collision_detected then
    collision_set_compass (average_collision_coordinates collision_dictionary) a
  else a

end Character

/-- Python's `int(...)` on a non-negative float truncates towards zero; on a
general rational it is floor for non-negative and ceiling for negative
arguments. -/
def intTrunc (q : ℚ) : ℤ := if 0 ≤ q then ⌊q⌋ else ⌈q⌉

namespace NPC

/-- `NPC.is_timer_finished(initial_timer, timer_threshold_seconds)` at
wall-clock time `now = time.perf_counter()`.  Raises (`none`) when the initial
timer still holds the sentinel `-1`; otherwise compares
`int(time.perf_counter()) >= initial_timer + timer_threshold_seconds`. -/
def is_timer_finished (initial_timer : ℚ) (timer_threshold_seconds : ℤ) (now : ℚ) :
    Option Bool :=
  if initial_timer = (DEFAULT_TIMER_VALUE : ℚ) then none
  else
    let current_time : ℤ := intTrunc now
    some (decide ((current_time : ℚ) ≥ initial_timer + (timer_threshold_seconds : ℚ)))

/-- `NPC.teleport_out_of_sprite` (the `NPC` override): ejects via the public
`move_left`/`move_right`/`move_up`/`move_down` (default one-pixel speed), which
also adjust the compass and re-sync the hitbox. -/
def teleport_out_of_sprite (collision_rect : Rect) (a : Actor) : Actor :=
  if Character.further_axis a (collision_rect.centerx, collision_rect.centery)
      = "horizontal" then
    if a.hitbox.centerx < collision_rect.centerx then
      if collision_rect.left - (a.hitbox.right + 1) < 0 then Tile.move_left 1 a else a
    else
      if collision_rect.right - (a.hitbox.left - 1) > 0 then Tile.move_right 1 a else a
  else
    if a.hitbox.centery < collision_rect.centery then
      if collision_rect.top - (a.hitbox.bottom + 1) < 0 then Tile.move_up 1 a else a
    else
      if collision_rect.bottom - (a.hitbox.top - 1) > 0 then Tile.move_down 1 a else a

/-- `collision_detection` as dispatched on an NPC (`teleport_out_of_sprite` is
overridden). -/
def collision_detection (a : Actor) : Character.CollisionReport × Actor :=
  Character.collision_detection_with teleport_out_of_sprite a

/-- `NPC.collision_set_compass`: the `Character` behaviour plus resetting the
patrol timestamp `_last_time_stored` to the current time. -/
def collision_set_compass (now : ℚ) (collided_coords : ℚ × ℚ) (a : Actor) : Actor :=
  { Character.collision_set_compass collided_coords a with last_time_stored := now }

/-- `collision_handler` as dispatched on an NPC. -/
def collision_handler (now : ℚ) (a : Actor) : Actor :=
  let (collision_dictionary, a) := collision_detection a
  if collision_dictionary.collision_detected then
    collision_set_compass now
      (Character.average_collision_coordinates collision_dictionary) a
  else a

/-- `float(sys.maxsize)` is exactly `2^63`; the embedding compares squared
distances, so the sentinel is `(2^63)^2 = 2^126` (written as a literal so
that kernel evaluation does not unfold a recursive power). -/
def MAXSIZE_SQ : ℤ := 85070591730234615865843651857942052864

theorem MAXSIZE_SQ_eq_two_pow : MAXSIZE_SQ = 2 ^ 126 := by norm_num [MAXSIZE_SQ]

/-- The `for collision_index in collisions` loop of
`NPC.set_target_sprite_from_list`, carrying
`(current_min_distance, index_of_closest)` (squared distance; the index keeps
the source's `-1` sentinel). -/
def target_loop (a : Actor) (sprite_group_list : List Sprite) :
    List ℕ → ℤ × ℤ → ℤ × ℤ
  | [], acc => acc
  | collision_index :: rest, (current_min_distance, index_of_closest) =>
    let s := sprite_group_list.getD collision_index ⟨⟨0,0,0,0⟩, ⟨0,0,0,0⟩⟩
    let coord : ℤ × ℤ := (s.rect.centerx, s.rect.centery)
    let distance := Character.get_distance_sq a coord
    let old_min := current_min_distance
    let new_min := min distance current_min_distance
    let acc :=
      if new_min < old_min then (new_min, (collision_index : ℤ))
      else (new_min, index_of_closest)
    target_loop a sprite_group_list rest acc

/-- `NPC.set_target_sprite_from_list(sprite_group_list, collisions)`: returns
the index of the sprite chosen as `_target_sprite` (`none` when
`index_of_closest` stays `-1`). -/
def set_target_sprite_from_list (a : Actor) (sprite_group_list : List Sprite)
    (collisions : List ℕ) : Option ℕ :=
  let r := target_loop a sprite_group_list collisions (MAXSIZE_SQ, -1)
  if r.2 ≠ -1 then some r.2.toNat else none

/-- The group branch of `NPC.radar_set_state`:
`self._radar.collidelistall(hitbox_list)`. -/
def radar_collisions (a : Actor) (sprite_group_list : List Sprite) : List ℕ :=
  a.radar.collidelistall (sprite_group_list.map Sprite.hitbox)

/-- A radar scan against a sprite group: the broad phase of `radar_set_state`
followed by `set_target_sprite_from_list`. -/
def radar_scan_group (a : Actor) (sprite_group_list : List Sprite) : Option ℕ :=
  set_target_sprite_from_list a sprite_group_list (radar_collisions a sprite_group_list)

/-- `NPC.charged_into_obstacle`.  Modelled from the spec: it calls the
two-argument `collision_detection(self._obstacle_sprites, self._hitbox)` of the
m1wengine `Character` class, whose module is not under `src/`; per the spec's
collision-detector contract the broad phase is an axis-aligned overlap test of
the given hitbox against every candidate's hitbox, and only the detected-flag
is consumed here. -/
def charged_into_obstacle (a : Actor) : Bool :=
  a.obstacle_sprites.any fun s => a.hitbox.colliderect s.hitbox

/-- `NPC.reset_charge_variables`. -/
def reset_charge_variables (a : Actor) : Actor :=
  let a := if a.speed ≠ DEFAULT_SPEED then { a with speed := DEFAULT_SPEED } else a
  { a with target_sprite := none,
           initial_tracking_time := DEFAULT_TIMER_VALUE,
           initial_charge_time := DEFAULT_TIMER_VALUE }

/-- `NPC.set_state_default`. -/
def set_state_default (a : Actor) : Actor := { a with current_state := State.Default }

/-- `NPC.set_state_patrol`.  The source guard is
`if self._current_state != self._states.Thrown and not self._states.Charging:`;
`self._states.Charging` is an `Enum` member and hence truthy, so
`not self._states.Charging` always evaluates to `False` and the state is never
set.  The embedding keeps the second conjunct as the constant it evaluates
to. -/
def set_state_patrol (a : Actor) : Actor :=
  if a.current_state ≠ State.Thrown ∧ False then { a with current_state := State.Patrol }
  else a

/-- `NPC.set_state_attack`. -/
def set_state_attack (a : Actor) : Actor :=
  if a.current_state ≠ State.Thrown then { a with current_state := State.Attack } else a

/-- `NPC.set_state_flee`. -/
def set_state_flee (a : Actor) : Actor := { a with current_state := State.Flee }

/-- `NPC.set_state_follow`. -/
def set_state_follow (a : Actor) : Actor :=
  if a.current_state ≠ State.Thrown then { a with current_state := State.Follow } else a

/-- `NPC.set_state_thrown`: unconditional; also stamps `_last_time_stored` and
copies the player's compass. -/
def set_state_thrown (now : ℚ) (player_compass : Vec2) (a : Actor) : Actor :=
  { a with current_state := State.Thrown, last_time_stored := now,
           compass := player_compass }

/-- `NPC.set_state_track`: only from `Patrol`. -/
def set_state_track (a : Actor) : Actor :=
  if a.current_state = State.Patrol then { a with current_state := State.Tracking }
  else a

/-- `NPC.set_state_charge`: only from `Tracking`. -/
def set_state_charge (a : Actor) : Actor :=
  if a.current_state = State.Tracking then { a with current_state := State.Charging }
  else a

/-- `NPC.patrol_movement` at wall-clock time `now` (`none` = the un-started
timer `ValueError` propagated). -/
def patrol_movement (now : ℚ) (a : Actor) : Option Actor :=
  if a.current_state = State.Patrol then
    let current_time_in_seconds := now
    let a := if a.speed ≠ DEFAULT_SPEED then { a with speed := DEFAULT_SPEED } else a
    match is_timer_finished a.last_time_stored 3 now with
    | none => none
    | some finished =>
      let a :=
        if finished then
          -- source: `if self.compass.x != 1 or self.compass.x != 1:` (the
          -- disjunction repeats the same test)
          let cx : ℚ :=
            if a.compass.x ≠ 1 ∨ a.compass.x ≠ 1 then 1 else a.compass.x * (-1)
          { a with compass := ⟨cx, 0⟩, last_time_stored := current_time_in_seconds }
        else a
      let a := collision_handler now a
      some (Tile.move a.speed a)
  else some a

/-- `NPC.charge_movement` at wall-clock time `now`. -/
def charge_movement (now : ℚ) (a : Actor) : Option Actor :=
  if a.current_state = State.Charging then
    -- protect compass to prevent it from being overwritten
    let a := { a with compass := a.initial_charge_compass }
    let a :=
      if a.initial_charge_time = DEFAULT_TIMER_VALUE then
        { a with initial_charge_time := intTrunc now }
      else a
    match is_timer_finished (a.initial_charge_time : ℚ) CHARGING_TIMER_SECONDS now with
    | none => none
    | some finished =>
      if finished || charged_into_obstacle a then
        some (set_state_default (reset_charge_variables a))
      else
        -- source: `if self.speed == self.DEFAULT_SPEED or self.DEFAULT_SPEED_ZERO:`
        -- the second disjunct is the bare constant 0, which is falsy
        let a :=
          if a.speed = DEFAULT_SPEED ∨ DEFAULT_SPEED_ZERO ≠ 0 then
            { a with speed := DEFAULT_SPEED_FAST }
          else a
        some (Tile.move a.speed a)
  else some a

end NPC

/-- One call to one of the eight NPC state setters (the only operations that
assign `_current_state` from outside).  `set_state_thrown` carries its
observable inputs. -/
inductive SetterCall where
  | default
  | patrol
  | attack
  | flee
  | follow
  | thrown (now : ℚ) (player_compass : Vec2)
  | track
  | charge

/-- Dispatch a setter call. -/
def applySetter : SetterCall → Actor → Actor
  | .default => NPC.set_state_default
  | .patrol => NPC.set_state_patrol
  | .attack => NPC.set_state_attack
  | .flee => NPC.set_state_flee
  | .follow => NPC.set_state_follow
  | .thrown now pc => NPC.set_state_thrown now pc
  | .track => NPC.set_state_track
  | .charge => NPC.set_state_charge

/-- The sequence of states observed along a sequence of setter calls
(including the starting state). -/
def stateTrace (a : Actor) (l : List SetterCall) : List State :=
  (List.scanl (fun a c => applySetter c a) a l).map Actor.current_state

/-- The guard invariants of the claim, as a relation between consecutive
observed states. -/
def GuardStep (s s' : State) : Prop :=
  ((s = State.Thrown ∨ s = State.Charging) → s' ≠ State.Patrol) ∧
  (s' = State.Charging → s = State.Charging ∨ s = State.Tracking) ∧
  (s' = State.Tracking → s = State.Tracking ∨ s = State.Patrol)

/-!
## The tracking model

`NPC.tracking_movement` rotates the compass with `math.atan2` and
`pygame.math.Vector2.rotate_ip_rad`, so its compass lives in `ℝ × ℝ`; it gets
its own actor record with real-valued compass fields (all other fields as in
`Actor`).  Lean's real trigonometric functions are noncomputable, which only
affects code generation, not kernel reduction of the discrete fields.
-/

namespace Track

structure TrackActor where
  rect : Rect
  hitbox : Rect
  compass : ℝ × ℝ
  speed : ℤ
  current_state : State
  target_sprite : Option Sprite
  obstacle_sprites : List Sprite
  initial_tracking_time : ℤ
  initial_charge_time : ℤ
  initial_charge_compass : ℝ × ℝ

/-- `math.atan2(y, x)`: the argument of the complex number `x + y·i`. -/
noncomputable def atan2 (y x : ℝ) : ℝ := Complex.arg ⟨x, y⟩

/-- The compass value produced by `NPC.rotate_compass_to_target_sprite`:
`opposite = target.centerx - self.centerx`, `adjecent = self.centery -
target.centery`, and `(Direction.stop, Direction.up) = (0, -1)` rotated in
place by `atan2(opposite, adjecent)` radians
(`(x, y) ↦ (x·cos θ - y·sin θ, x·sin θ + y·cos θ)`), giving
`(sin θ, -cos θ)`. -/
noncomputable def rotate_compass_value (self_rect target_rect : Rect) : ℝ × ℝ :=
  let opposite : ℝ := (target_rect.centerx : ℝ) - (self_rect.centerx : ℝ)
  let adjecent : ℝ := (self_rect.centery : ℝ) - (target_rect.centery : ℝ)
  let radians : ℝ := atan2 opposite adjecent
  (Real.sin radians, -Real.cos radians)

/-- `further_axis` over the tracking record. -/
def further_axis (a : TrackActor) (coord : ℤ × ℤ) : String :=
  if |a.rect.centerx - coord.1| > |a.rect.centery - coord.2| then "horizontal"
  else "vertical"

/-- `Tile.move_left` as reached from the NPC teleport override (speed 1):
compass set to `(Direction.right, 0)`, rect nudged, hitbox re-synced. -/
def move_left (speed : ℤ) (a : TrackActor) : TrackActor :=
  let rect := a.rect.move_ip (-1 * speed) 0
  { a with compass := ((1 : ℝ), (0 : ℝ)), rect := rect,
           hitbox := a.hitbox.setCenter rect.centerx rect.centery }

def move_right (speed : ℤ) (a : TrackActor) : TrackActor :=
  let rect := a.rect.move_ip speed 0
  { a with compass := ((1 : ℝ), (0 : ℝ)), rect := rect,
           hitbox := a.hitbox.setCenter rect.centerx rect.centery }

def move_up (speed : ℤ) (a : TrackActor) : TrackActor :=
  let rect := a.rect.move_ip 0 (-1 * speed)
  { a with compass := ((0 : ℝ), (-1 : ℝ)), rect := rect,
           hitbox := a.hitbox.setCenter rect.centerx rect.centery }

def move_down (speed : ℤ) (a : TrackActor) : TrackActor :=
  let rect := a.rect.move_ip 0 speed
  { a with compass := ((0 : ℝ), (1 : ℝ)), rect := rect,
           hitbox := a.hitbox.setCenter rect.centerx rect.centery }

/-- `NPC.teleport_out_of_sprite` over the tracking record. -/
def teleport_out_of_sprite (collision_rect : Rect) (a : TrackActor) : TrackActor :=
  if further_axis a (collision_rect.centerx, collision_rect.centery) = "horizontal" then
    if a.hitbox.centerx < collision_rect.centerx then
      if collision_rect.left - (a.hitbox.right + 1) < 0 then move_left 1 a else a
    else
      if collision_rect.right - (a.hitbox.left - 1) > 0 then move_right 1 a else a
  else
    if a.hitbox.centery < collision_rect.centery then
      if collision_rect.top - (a.hitbox.bottom + 1) < 0 then move_up 1 a else a
    else
      if collision_rect.bottom - (a.hitbox.top - 1) > 0 then move_down 1 a else a

/-- `collision_detection(self._obstacle_sprites)` as called from
`tracking_movement`: broad phase on the display rects, then the per-collision
loop ejects interleaved with detection.  The side-bucket lists the loop also
builds are discarded by `tracking_movement` (it reads only
`collision_detected`), so the embedding keeps just the flag and the teleport
side effects. -/
def collision_detection (a : TrackActor) : Bool × TrackActor :=
  let collision_indicies := a.rect.collidelistall (a.obstacle_sprites.map Sprite.rect)
  if collision_indicies.isEmpty then (false, a)
  else
    (true,
      collision_indicies.foldl
        (fun a i =>
          teleport_out_of_sprite
            ((a.obstacle_sprites.getD i ⟨⟨0,0,0,0⟩, ⟨0,0,0,0⟩⟩).hitbox) a)
        a)

/-- `NPC.reset_charge_variables` over the tracking record. -/
def reset_charge_variables (a : TrackActor) : TrackActor :=
  let a := if a.speed ≠ DEFAULT_SPEED then { a with speed := DEFAULT_SPEED } else a
  { a with target_sprite := none,
           initial_tracking_time := DEFAULT_TIMER_VALUE,
           initial_charge_time := DEFAULT_TIMER_VALUE }

/-- `NPC.set_state_charge` over the tracking record. -/
def set_state_charge (a : TrackActor) : TrackActor :=
  if a.current_state = State.Tracking then { a with current_state := State.Charging }
  else a

/-- `NPC.tracking_movement` at wall-clock time `now` (`none` = an exception
propagated: the target placeholder has no rect, or an un-started timer was
read). -/
noncomputable def tracking_movement (now : ℚ) (a : TrackActor) : Option TrackActor :=
  if a.current_state = State.Tracking then
    let a :=
      if a.speed ≠ DEFAULT_SPEED_ZERO then { a with speed := DEFAULT_SPEED_ZERO } else a
    match a.target_sprite with
    | none => none
    | some target =>
      let a := { a with compass := rotate_compass_value a.rect target.rect }
      let a := { a with initial_charge_compass := a.compass }
      let (collision_detected, a) := collision_detection a
      if collision_detected then
        let a :=
          if a.initial_tracking_time = DEFAULT_TIMER_VALUE then
            { a with initial_tracking_time := intTrunc now }
          else a
        match NPC.is_timer_finished (a.initial_tracking_time : ℚ)
            TRACKING_TIMER_SECONDS now with
        | none => none
        | some finished => some (if finished then set_state_charge a else a)
      else
        some (reset_charge_variables a)
  else some a

end Track

/-!
## Shared concrete actors and helper lemmas
-/

/-- A freshly spawned actor: `Default` state, unit speed, compass pointing
right (`Character.__init__` sets `compass.x = Direction.right`), zeroed
trackers, sentinel timers. -/
def baseActor : Actor :=
  { rect := ⟨0, 0, 16, 20⟩
    hitbox := ⟨0, 0, 16, 20⟩
    radar := ⟨0, 0, 0, 0⟩
    compass := ⟨1, 0⟩
    tracker_h := 0
    tracker_v := 0
    speed := 1
    status := "right"
    current_state := State.Default
    last_time_stored := 0
    initial_tracking_time := -1
    initial_charge_time := -1
    initial_charge_compass := ⟨0, 0⟩
    target_sprite := none
    obstacle_sprites := [] }

theorem Tile_move_preserves (speed : ℤ) (a : Actor) :
    (Tile.move speed a).compass = a.compass ∧
    (Tile.move speed a).current_state = a.current_state ∧
    (Tile.move speed a).last_time_stored = a.last_time_stored ∧
    (Tile.move speed a).speed = a.speed ∧
    (Tile.move speed a).obstacle_sprites = a.obstacle_sprites := by
  simp only [Tile.move, Tile.update_movement_tracker, Tile._move_up, Tile._move_down,
    Tile._move_left, Tile._move_right]
  split_ifs <;> simp

/-!
## C10 — `move_left` decreases x but stores a rightward compass
-/

/-- C10: for every speed, `Tile.move_left(speed)` decreases the rectangle's x
position by `speed` pixels yet sets the compass to `(Direction.right, 0)`,
that is `(1, 0)` — exactly the compass `move_right` sets — so the stored
heading, and the facing status derived from it by
`set_status_by_curr_rotation`, point right. -/
theorem move_left_sets_compass_right (speed : ℤ) (a : Actor) :
    (Tile.move_left speed a).rect.x = a.rect.x - speed ∧
    (Tile.move_left speed a).compass = ⟨Direction.right, 0⟩ ∧
    (Tile.move_left speed a).compass = ⟨1, 0⟩ ∧
    (Tile.move_left speed a).compass = (Tile.move_right speed a).compass ∧
    (Character.set_status_by_curr_rotation (Tile.move_left speed a)).status = "right" := by
  refine ⟨?_, rfl, rfl, rfl, ?_⟩
  · simp [Tile.move_left, Tile._move_left, Rect.move_ip]; ring
  · simp [Character.set_status_by_curr_rotation, Tile.move_left, Tile._move_left]
    norm_num [Direction.right]

/-!
## C8 — movement is not normalized: diagonals are faster
-/

/-- An actor whose compass is the diagonal `(1, 1)` with empty movement
trackers. -/
def diagActor : Actor := { baseActor with compass := ⟨1, 1⟩ }

/-- An actor whose compass is the axis-aligned `(1, 0)` with empty movement
trackers. -/
def axisActor : Actor := { baseActor with compass := ⟨1, 0⟩ }

/-- C8 counterexample: one `move` tick at speed 1 from empty trackers
displaces the diagonal-compass actor by `(1, 1)` — squared distance 2 — while
the axis-aligned actor moves squared distance 1; the diagonal displacement
per tick strictly exceeds the axis-aligned one, refuting the claimed
normalization invariant. -/
theorem diagonal_tick_outruns_axis_tick :
    ((Tile.move 1 diagActor).rect.x - diagActor.rect.x) ^ 2 +
        ((Tile.move 1 diagActor).rect.y - diagActor.rect.y) ^ 2 = 2 ∧
    ((Tile.move 1 axisActor).rect.x - axisActor.rect.x) ^ 2 +
        ((Tile.move 1 axisActor).rect.y - axisActor.rect.y) ^ 2 = 1 ∧
    (2 : ℤ) > 1 := by
  refine ⟨?_, ?_, by norm_num⟩ <;>
    norm_num [Tile.move, Tile.update_movement_tracker, diagActor, axisActor, baseActor,
      Tile._move_down, Tile._move_right, Tile._move_up, Tile._move_left, Rect.move_ip,
      Direction.up, Direction.down, Direction.left, Direction.right]

/-- C8 as amended: `move` never normalizes the compass; each axis steps by
`-speed`, `0` or `+speed` per tick independently, so a diagonal compass
`(1, 1)` fires both axes in the same tick and displaces the actor by
`(speed, speed)` — strictly more distance than the `(speed, 0)` displacement
of the axis-aligned compass `(1, 0)` at the same speed. -/
theorem move_steps_per_axis (speed : ℤ) (a : Actor) :
    ((Tile.move speed a).rect.x - a.rect.x = -speed ∨
      (Tile.move speed a).rect.x - a.rect.x = 0 ∨
      (Tile.move speed a).rect.x - a.rect.x = speed) ∧
    ((Tile.move speed a).rect.y - a.rect.y = -speed ∨
      (Tile.move speed a).rect.y - a.rect.y = 0 ∨
      (Tile.move speed a).rect.y - a.rect.y = speed) ∧
    (Tile.move speed diagActor).rect.x - diagActor.rect.x = speed ∧
    (Tile.move speed diagActor).rect.y - diagActor.rect.y = speed ∧
    (Tile.move speed axisActor).rect.x - axisActor.rect.x = speed ∧
    (Tile.move speed axisActor).rect.y - axisActor.rect.y = 0 := by
  refine ⟨?_, ?_, ?_, ?_, ?_, ?_⟩
  · simp only [Tile.move, Tile.update_movement_tracker, Tile._move_up, Tile._move_down,
      Tile._move_left, Tile._move_right, Rect.move_ip]
    split_ifs <;> simp
  · simp only [Tile.move, Tile.update_movement_tracker, Tile._move_up, Tile._move_down,
      Tile._move_left, Tile._move_right, Rect.move_ip]
    split_ifs <;> simp
  all_goals
    norm_num [Tile.move, Tile.update_movement_tracker, Tile._move_up, Tile._move_down,
      Tile._move_left, Tile._move_right, Rect.move_ip, diagActor, axisActor, baseActor,
      Direction.up, Direction.down, Direction.left, Direction.right]

/-!
## C9 — hitbox-centre re-sync after positional changes
-/

/-- The concrete actor of the hitbox-sync counterexample: display rect and
hitbox coincide (both `16×20` at `(100, 100)`), so their centres agree before
the ejection. -/
def teleActor : Actor :=
  { baseActor with rect := ⟨100, 100, 16, 20⟩, hitbox := ⟨100, 100, 16, 20⟩ }

/-- C9 counterexample: `Character.teleport_out_of_sprite` against an obstacle
hitbox at `(108, 100)` ejects the display rect one pixel left but never
touches the hitbox, so immediately after this positional change the hitbox
centre no longer equals the display rectangle's centre. -/
theorem teleport_desyncs_hitbox_center :
    teleActor.hitbox.center = teleActor.rect.center ∧
    (Character.teleport_out_of_sprite ⟨108, 100, 16, 20⟩ teleActor).rect =
      ⟨99, 100, 16, 20⟩ ∧
    (Character.teleport_out_of_sprite ⟨108, 100, 16, 20⟩ teleActor).hitbox.center ≠
      (Character.teleport_out_of_sprite ⟨108, 100, 16, 20⟩ teleActor).rect.center := by
  refine ⟨rfl, ?_, ?_⟩ <;> decide

/-- C9 as amended: after `Tile.move` and the four directional moves the hitbox
centre is re-synced to the display rectangle's centre (for `move`, whenever
any positional change fired at all); the one-pixel ejection of
`Character.teleport_out_of_sprite` moves only the display rect, so there the
invariant does not hold (see the counterexample). -/
theorem moves_sync_hitbox_center (speed : ℤ) (a : Actor) :
    (Tile._move_left speed a).hitbox.center = (Tile._move_left speed a).rect.center ∧
    (Tile._move_right speed a).hitbox.center = (Tile._move_right speed a).rect.center ∧
    (Tile._move_up speed a).hitbox.center = (Tile._move_up speed a).rect.center ∧
    (Tile._move_down speed a).hitbox.center = (Tile._move_down speed a).rect.center ∧
    (Tile.move_left speed a).hitbox.center = (Tile.move_left speed a).rect.center ∧
    (Tile.move_right speed a).hitbox.center = (Tile.move_right speed a).rect.center ∧
    (Tile.move_up speed a).hitbox.center = (Tile.move_up speed a).rect.center ∧
    (Tile.move_down speed a).hitbox.center = (Tile.move_down speed a).rect.center ∧
    ((Tile.move speed a).rect = a.rect ∧ (Tile.move speed a).hitbox = a.hitbox ∨
      (Tile.move speed a).hitbox.center = (Tile.move speed a).rect.center) := by
  have hsync : ∀ (r : Rect) (hb : Rect),
      (hb.setCenter r.centerx r.centery).center = r.center := by
    intro r hb
    simp only [Rect.setCenter, Rect.center, Rect.centerx, Rect.centery, Prod.mk.injEq]
    omega
  refine ⟨?_, ?_, ?_, ?_, ?_, ?_, ?_, ?_, ?_⟩
  · exact hsync _ _
  · exact hsync _ _
  · exact hsync _ _
  · exact hsync _ _
  · exact hsync _ _
  · exact hsync _ _
  · exact hsync _ _
  · exact hsync _ _
  · simp only [Tile.move, Tile.update_movement_tracker, Tile._move_up, Tile._move_down,
      Tile._move_left, Tile._move_right]
    split_ifs <;> simp [hsync]

/-!
## C7 — the timer primitive
-/

/-- C7: `is_timer_finished(initial_timer, threshold)` raises exactly when
`initial_timer` is the sentinel `-1`; otherwise it raises nothing and returns
`true` iff the current wall-clock time `now` (non-negative, as
`time.perf_counter()` is) has reached `initial_timer + threshold`. -/
theorem is_timer_finished_spec (initial threshold : ℤ) (now : ℚ) (hnow : 0 ≤ now) :
    (initial = -1 → NPC.is_timer_finished (initial : ℚ) threshold now = none) ∧
    (initial ≠ -1 →
      ∃ b, NPC.is_timer_finished (initial : ℚ) threshold now = some b ∧
        (b = true ↔ (initial : ℚ) + (threshold : ℚ) ≤ now)) := by
  constructor
  · intro h
    subst h
    norm_num [NPC.is_timer_finished, DEFAULT_TIMER_VALUE]
  · intro h
    have hne : (initial : ℚ) ≠ ((DEFAULT_TIMER_VALUE : ℤ) : ℚ) := by
      simp only [DEFAULT_TIMER_VALUE]
      exact_mod_cast h
    rw [NPC.is_timer_finished, if_neg hne]
    refine ⟨_, rfl, ?_⟩
    rw [decide_eq_true_iff]
    have htr : intTrunc now = ⌊now⌋ := by rw [intTrunc, if_pos hnow]
    rw [htr, ge_iff_le]
    constructor
    · intro hge
      have h2 : (initial + threshold : ℤ) ≤ ⌊now⌋ := by exact_mod_cast hge
      have h3 := (Int.le_floor).mp h2
      push_cast at h3 ⊢
      linarith
    · intro hle
      have h2 : (initial + threshold : ℤ) ≤ ⌊now⌋ := by
        rw [Int.le_floor]
        push_cast
        linarith
      exact_mod_cast h2

/-- C7 witness: the theorem applied at `initial = 0`, `threshold = 3`,
`now = 5` (where the timer is finished: `5 ≥ 0 + 3`). -/
theorem is_timer_finished_spec_witness :
    (0 : ℚ) ≤ 5 ∧
    ((0 : ℤ) ≠ -1 →
      ∃ b, NPC.is_timer_finished ((0 : ℤ) : ℚ) 3 5 = some b ∧
        (b = true ↔ ((0 : ℤ) : ℚ) + ((3 : ℤ) : ℚ) ≤ 5)) := by
  exact ⟨by norm_num, (is_timer_finished_spec 0 3 5 (by norm_num)).2⟩

/-!
## C3 — state-machine guard invariants
-/

theorem applySetter_guard (c : SetterCall) (a : Actor) :
    GuardStep a.current_state ((applySetter c a).current_state) := by
  cases c <;>
    simp only [applySetter, NPC.set_state_default, NPC.set_state_patrol,
      NPC.set_state_attack, NPC.set_state_flee, NPC.set_state_follow,
      NPC.set_state_thrown, NPC.set_state_track, NPC.set_state_charge] <;>
    cases hcs : a.current_state <;>
    simp [GuardStep, hcs]

theorem stateTrace_cons (a : Actor) (c : SetterCall) (l : List SetterCall) :
    stateTrace a (c :: l) = a.current_state :: stateTrace (applySetter c a) l := by
  simp [stateTrace, List.scanl_cons]

theorem stateTrace_head (a : Actor) (l : List SetterCall) :
    (stateTrace a l).head? = some a.current_state := by
  cases l <;> simp [stateTrace, List.scanl_cons]

theorem chain_stateTrace (l : List SetterCall) (a : Actor) :
    List.Chain' GuardStep (stateTrace a l) := by
  induction l generalizing a with
  | nil => simp [stateTrace]
  | cons c l ih =>
    rw [stateTrace_cons]
    refine List.chain'_cons'.mpr ⟨?_, ih _⟩
    intro y hy
    rw [stateTrace_head, Option.mem_def, Option.some_inj] at hy
    rw [← hy]
    exact applySetter_guard c a

/-- C3: along every sequence of state-setter calls starting from the `Default`
state, consecutive observed states satisfy the guard invariants: a state of
`Thrown` or `Charging` is never immediately followed by `Patrol`
(`set_state_patrol` refuses while they are active), `Charging` is only ever
entered when the immediately preceding state was `Tracking`
(`set_state_charge` succeeds only from `Tracking`), and `Tracking` is only
ever entered from `Patrol` (`set_state_track` succeeds only from
`Patrol`). -/
theorem npc_state_guard_invariants (l : List SetterCall) (a : Actor)
    (_hinit : a.current_state = State.Default) :
    List.Chain' GuardStep (stateTrace a l) :=
  chain_stateTrace l a

/-- C3 witness: the theorem applied to a freshly spawned actor and the
call sequence attack → thrown → patrol. -/
theorem npc_state_guard_invariants_witness :
    baseActor.current_state = State.Default ∧
    List.Chain' GuardStep
      (stateTrace baseActor [SetterCall.attack, SetterCall.thrown 0 ⟨1, 0⟩,
        SetterCall.patrol]) :=
  ⟨rfl, npc_state_guard_invariants _ baseActor rfl⟩

/-!
## C1 — radar target selection
-/

/-- The (squared) distance computed for entry `i` of the collision list inside
`set_target_sprite_from_list`: from the scanning actor (via `get_distance`,
i.e. from its rect's top-left corner) to the sprite's rect centre. -/
def collision_distance (a : Actor) (sprite_group_list : List Sprite) (i : ℕ) : ℤ :=
  Character.get_distance_sq a
    ((sprite_group_list.getD i ⟨⟨0, 0, 0, 0⟩, ⟨0, 0, 0, 0⟩⟩).rect.centerx,
     (sprite_group_list.getD i ⟨⟨0, 0, 0, 0⟩, ⟨0, 0, 0, 0⟩⟩).rect.centery)

/-- The distance notion the claim asserts (defined from the claim's words, for
comparison): Euclidean distance from the scanning actor's rect *centre* to the
member's rect centre, squared.  The source's `get_distance` measures from
`self.rect[0], self.rect[1]` — the top-left corner — instead. -/
def center_to_center_dist_sq (a : Actor) (coords : ℤ × ℤ) : ℤ :=
  (coords.1 - a.rect.centerx) ^ 2 + (coords.2 - a.rect.centery) ^ 2

theorem target_loop_cons (a : Actor) (sp : List Sprite) (i : ℕ) (rest : List ℕ)
    (m idx : ℤ) :
    NPC.target_loop a sp (i :: rest) (m, idx) =
      if collision_distance a sp i < m then
        NPC.target_loop a sp rest (collision_distance a sp i, (i : ℤ))
      else NPC.target_loop a sp rest (m, idx) := by
  have hfold : Character.get_distance_sq a
      ((sp.getD i ⟨⟨0, 0, 0, 0⟩, ⟨0, 0, 0, 0⟩⟩).rect.centerx,
       (sp.getD i ⟨⟨0, 0, 0, 0⟩, ⟨0, 0, 0, 0⟩⟩).rect.centery) =
      collision_distance a sp i := rfl
  rcases lt_or_le (collision_distance a sp i) m with h | h
  · rw [if_pos h]
    simp only [NPC.target_loop]
    rw [hfold]
    rw [show min (collision_distance a sp i) m = collision_distance a sp i from
      min_eq_left h.le]
    rw [if_pos h]
  · rw [if_neg (not_lt.mpr h)]
    simp only [NPC.target_loop]
    rw [hfold]
    rw [show min (collision_distance a sp i) m = m from min_eq_right h]
    rw [if_neg (lt_irrefl m)]

theorem target_loop_ge (a : Actor) (sp : List Sprite) :
    ∀ (c : List ℕ) (m idx : ℤ),
      (∀ j ∈ c, m ≤ collision_distance a sp j) →
      NPC.target_loop a sp c (m, idx) = (m, idx) := by
  intro c
  induction c with
  | nil => intro m idx _; rfl
  | cons i rest ih =>
    intro m idx h
    rw [target_loop_cons, if_neg (not_lt.mpr (h i (List.mem_cons_self i rest)))]
    exact ih m idx fun j hj => h j (List.mem_cons_of_mem _ hj)

theorem target_loop_found (a : Actor) (sp : List Sprite) :
    ∀ (c : List ℕ) (m idx : ℤ),
      (∃ j ∈ c, collision_distance a sp j < m) →
      ∃ pre i post, c = pre ++ i :: post ∧
        collision_distance a sp i < m ∧
        (∀ p ∈ pre, collision_distance a sp i < collision_distance a sp p) ∧
        (∀ q ∈ post, collision_distance a sp i ≤ collision_distance a sp q) ∧
        NPC.target_loop a sp c (m, idx) = (collision_distance a sp i, (i : ℤ)) := by
  intro c
  induction c with
  | nil =>
    rintro m idx ⟨j, hj, _⟩
    exact absurd hj (List.not_mem_nil j)
  | cons i0 rest ih =>
    intro m idx hex
    rcases lt_or_le (collision_distance a sp i0) m with hlt | hge
    · by_cases hrest : ∃ j ∈ rest, collision_distance a sp j < collision_distance a sp i0
      · obtain ⟨pre, i, post, hsplit, hlt2, hpre, hpost, heq⟩ :=
          ih (collision_distance a sp i0) (i0 : ℤ) hrest
        refine ⟨i0 :: pre, i, post, ?_, lt_trans hlt2 hlt, ?_, hpost, ?_⟩
        · rw [List.cons_append, ← hsplit]
        · intro p hp
          rcases List.mem_cons.mp hp with rfl | hp2
          · exact hlt2
          · exact hpre p hp2
        · rw [target_loop_cons, if_pos hlt, heq]
      · push_neg at hrest
        refine ⟨[], i0, rest, rfl, hlt, by simp, hrest, ?_⟩
        rw [target_loop_cons, if_pos hlt]
        exact target_loop_ge a sp rest _ _ hrest
    · have hex' : ∃ j ∈ rest, collision_distance a sp j < m := by
        obtain ⟨j, hj, hjlt⟩ := hex
        rcases List.mem_cons.mp hj with rfl | hj2
        · exact absurd hjlt (not_lt.mpr hge)
        · exact ⟨j, hj2, hjlt⟩
      obtain ⟨pre, i, post, hsplit, hlt2, hpre, hpost, heq⟩ := ih m idx hex'
      refine ⟨i0 :: pre, i, post, ?_, hlt2, ?_, hpost, ?_⟩
      · rw [List.cons_append, ← hsplit]
      · intro p hp
        rcases List.mem_cons.mp hp with rfl | hp2
        · exact lt_of_lt_of_le hlt2 hge
        · exact hpre p hp2
      · rw [target_loop_cons, if_neg (not_lt.mpr hge), heq]

/-- C1 as amended: when at least one member's hitbox overlaps the radar
rectangle (and every overlapping member is nearer than the `float(sys.maxsize)`
sentinel), the radar scan chooses exactly the overlapping member whose
Euclidean distance *from the scanning actor's rect top-left corner*
(`rect[0], rect[1]`, as computed by `get_distance`) to the member's rect
centre is minimal; at equal minimal distance the first member encountered in
iteration order wins (all members before the chosen one are strictly
farther, all members after are no nearer). -/
theorem radar_scan_chooses_min_topleft (a : Actor) (sprites : List Sprite)
    (hne : NPC.radar_collisions a sprites ≠ [])
    (hbound : ∀ j ∈ NPC.radar_collisions a sprites,
      collision_distance a sprites j < NPC.MAXSIZE_SQ) :
    ∃ pre i post,
      NPC.radar_collisions a sprites = pre ++ i :: post ∧
      NPC.radar_scan_group a sprites = some i ∧
      (∀ p ∈ pre, collision_distance a sprites i < collision_distance a sprites p) ∧
      (∀ q ∈ post, collision_distance a sprites i ≤ collision_distance a sprites q) := by
  obtain ⟨j, hj⟩ : ∃ j, j ∈ NPC.radar_collisions a sprites :=
    List.exists_mem_of_ne_nil _ hne
  obtain ⟨pre, i, post, hsplit, _hlt, hpre, hpost, heq⟩ :=
    target_loop_found a sprites (NPC.radar_collisions a sprites) NPC.MAXSIZE_SQ (-1)
      ⟨j, hj, hbound j hj⟩
  refine ⟨pre, i, post, hsplit, ?_, hpre, hpost⟩
  have hine : ((i : ℤ)) ≠ -1 := by omega
  simp only [NPC.radar_scan_group, NPC.set_target_sprite_from_list, heq]
  simp [hine]

/-- The actor whose radar the C1 scans use: rect `16×20` at the origin and a
radar rectangle generously covering all test sprites. -/
def radarActor : Actor := { baseActor with radar := ⟨-100, -100, 300, 300⟩ }

/-- Two sprites both inside the radar: member 0 with rect centre `(-12, 0)`
(nearest to the actor's rect top-left `(0, 0)`), member 1 with rect centre
`(12, 10)` (nearest to the actor's rect centre `(8, 10)`). -/
def c1Sprites : List Sprite :=
  [⟨⟨-20, -10, 16, 20⟩, ⟨-20, -10, 16, 20⟩⟩, ⟨⟨4, 0, 16, 20⟩, ⟨4, 0, 16, 20⟩⟩]

/-- C1 counterexample: both members overlap the radar, the scan picks member
0, yet member 1 has strictly smaller center-to-center distance to the
scanning actor — so the chosen target is not the member of minimal
center-to-center distance. -/
theorem radar_scan_not_center_to_center :
    NPC.radar_collisions radarActor c1Sprites = [0, 1] ∧
    NPC.radar_scan_group radarActor c1Sprites = some 0 ∧
    (c1Sprites.getD 0 ⟨⟨0, 0, 0, 0⟩, ⟨0, 0, 0, 0⟩⟩).rect.center = (-12, 0) ∧
    (c1Sprites.getD 1 ⟨⟨0, 0, 0, 0⟩, ⟨0, 0, 0, 0⟩⟩).rect.center = (12, 10) ∧
    center_to_center_dist_sq radarActor (12, 10) <
      center_to_center_dist_sq radarActor (-12, 0) := by
  refine ⟨?_, ?_, ?_, ?_, ?_⟩ <;> decide

/-- The single-sprite group used by the C1 witness. -/
def witnessSprites : List Sprite := [⟨⟨30, 40, 16, 20⟩, ⟨30, 40, 16, 20⟩⟩]

/-- C1 witness: the amended theorem applied to a one-member group overlapping
the radar. -/
theorem radar_scan_chooses_min_topleft_witness :
    (NPC.radar_collisions radarActor witnessSprites ≠ [] ∧
      ∀ j ∈ NPC.radar_collisions radarActor witnessSprites,
        collision_distance radarActor witnessSprites j < NPC.MAXSIZE_SQ) ∧
    ∃ pre i post,
      NPC.radar_collisions radarActor witnessSprites = pre ++ i :: post ∧
      NPC.radar_scan_group radarActor witnessSprites = some i ∧
      (∀ p ∈ pre,
        collision_distance radarActor witnessSprites i <
          collision_distance radarActor witnessSprites p) ∧
      (∀ q ∈ post,
        collision_distance radarActor witnessSprites i ≤
          collision_distance radarActor witnessSprites q) :=
  ⟨⟨by decide, by decide⟩,
    radar_scan_chooses_min_topleft radarActor witnessSprites (by decide) (by decide)⟩

/-!
## C2 — compass reflection off the collided side
-/

theorem reflect_horizontal_vect (v : Vec2) : v.reflect ⟨1, 0⟩ = ⟨-v.x, v.y⟩ := by
  simp only [Vec2.reflect, Vec2.mk.injEq]
  constructor <;> ring_nf

theorem reflect_vertical_vect (v : Vec2) : v.reflect ⟨0, 1⟩ = ⟨v.x, -v.y⟩ := by
  simp only [Vec2.reflect, Vec2.mk.injEq]
  constructor <;> ring_nf

/-- The concrete reflection scenario: actor at `(100, 100)` with `16×20`
display rect and hitbox, compass `(1, 0)`, and a single obstacle at
`(108, 100)` with `16×20` rect and hitbox (8 px horizontal overlap, no
vertical offset). -/
def collideActor : Actor :=
  { baseActor with
    rect := ⟨100, 100, 16, 20⟩
    hitbox := ⟨100, 100, 16, 20⟩
    compass := ⟨1, 0⟩
    obstacle_sprites := [⟨⟨108, 100, 16, 20⟩, ⟨108, 100, 16, 20⟩⟩] }

/-- C2: `collision_set_compass` reflects the compass across the dominant axis
of the average contact point exactly when the compass already points into the
collided side, and leaves the actor unchanged when it points away; in
particular one `collision_handler` call on the concrete scenario (actor at
`(100, 100)`, obstacle at `(108, 100)`, compass `(1, 0)`) makes `compass.x`
equal to `-1`. -/
theorem collision_set_compass_reflects (a : Actor) (p : ℚ × ℚ) :
    (|(a.rect.centerx : ℚ) - p.1| > |(a.rect.centery : ℚ) - p.2| →
      ((p.1 - (a.rect.centerx : ℚ) > 0 →
         (a.compass.x > 0 →
           (Character.collision_set_compass p a).compass = ⟨-a.compass.x, a.compass.y⟩) ∧
         (¬ a.compass.x > 0 → Character.collision_set_compass p a = a)) ∧
       (¬ p.1 - (a.rect.centerx : ℚ) > 0 →
         (a.compass.x < 0 →
           (Character.collision_set_compass p a).compass = ⟨-a.compass.x, a.compass.y⟩) ∧
         (¬ a.compass.x < 0 → Character.collision_set_compass p a = a)))) ∧
    (¬ |(a.rect.centerx : ℚ) - p.1| > |(a.rect.centery : ℚ) - p.2| →
      ((p.2 - (a.rect.centery : ℚ) < 0 →
         (a.compass.y < 0 →
           (Character.collision_set_compass p a).compass = ⟨a.compass.x, -a.compass.y⟩) ∧
         (¬ a.compass.y < 0 → Character.collision_set_compass p a = a)) ∧
       (¬ p.2 - (a.rect.centery : ℚ) < 0 →
         (a.compass.y > 0 →
           (Character.collision_set_compass p a).compass = ⟨a.compass.x, -a.compass.y⟩) ∧
         (¬ a.compass.y > 0 → Character.collision_set_compass p a = a)))) ∧
    (Character.collision_handler collideActor).compass = ⟨-1, 0⟩ := by
  refine ⟨?_, ?_, ?_⟩
  · intro hdom
    constructor
    · intro hside
      constructor
      · intro hinto
        rw [Character.collision_set_compass, if_pos hdom, if_pos hside, if_pos hinto]
        simp [reflect_horizontal_vect, Direction.right]
      · intro haway
        rw [Character.collision_set_compass, if_pos hdom, if_pos hside, if_neg haway]
    · intro hside
      constructor
      · intro hinto
        rw [Character.collision_set_compass, if_pos hdom, if_neg hside, if_pos hinto]
        simp [reflect_horizontal_vect, Direction.right]
      · intro haway
        rw [Character.collision_set_compass, if_pos hdom, if_neg hside, if_neg haway]
  · intro hdom
    constructor
    · intro hside
      constructor
      · intro hinto
        rw [Character.collision_set_compass, if_neg hdom, if_pos hside, if_pos hinto]
        simp [reflect_vertical_vect, Direction.down]
      · intro haway
        rw [Character.collision_set_compass, if_neg hdom, if_pos hside, if_neg haway]
    · intro hside
      constructor
      · intro hinto
        rw [Character.collision_set_compass, if_neg hdom, if_neg hside, if_pos hinto]
        simp [reflect_vertical_vect, Direction.down]
      · intro haway
        rw [Character.collision_set_compass, if_neg hdom, if_neg hside, if_neg haway]
  · norm_num [Character.collision_handler, Character.collision_detection,
      Character.collision_detection_with, Character.collision_loop, Character.emptyReport,
      Rect.collidelistall, Rect.colliderect, List.range_succ, Character.further_axis,
      Character.teleport_out_of_sprite, Character.average_collision_coordinates,
      Character.collision_set_compass, collideActor, baseActor, Rect.move_ip,
      Rect.centerx, Rect.centery, Rect.left, Rect.right, Rect.top, Rect.bottom,
      reflect_horizontal_vect, reflect_vertical_vect, Direction.right, Direction.down]

/-- C2 witness: the theorem applied at the scenario actor and the average
contact point `(116, 110)` it produces, discharging the
dominant-horizontal, collided-right and pointing-into-the-side
hypotheses. -/
theorem collision_set_compass_reflects_witness :
    (|(collideActor.rect.centerx : ℚ) - 116| > |(collideActor.rect.centery : ℚ) - 110| ∧
      (116 : ℚ) - (collideActor.rect.centerx : ℚ) > 0 ∧
      collideActor.compass.x > 0) ∧
    (Character.collision_set_compass (116, 110) collideActor).compass =
      ⟨-collideActor.compass.x, collideActor.compass.y⟩ := by
  have h1 : |(collideActor.rect.centerx : ℚ) - (116 : ℚ)| >
      |(collideActor.rect.centery : ℚ) - (110 : ℚ)| := by
    norm_num [collideActor, baseActor, Rect.centerx, Rect.centery]
  have h2 : (116 : ℚ) - (collideActor.rect.centerx : ℚ) > 0 := by
    norm_num [collideActor, baseActor, Rect.centerx]
  have h3 : collideActor.compass.x > 0 := by norm_num [collideActor, baseActor]
  exact ⟨⟨h1, h2, h3⟩,
    (((collision_set_compass_reflects collideActor (116, 110)).1 h1).1 h2).1 h3⟩

/-!
## C5 — the charge that never speeds up
-/

/-- An NPC exactly as it stands on the first `charge_movement` tick after the
Tracking → Charging transition: state `Charging`, speed still `0` (forced by
`tracking_movement`), the captured charge compass `(1, 0)`, charge timer
already stamped at second `0`, and no obstacle in contact. -/
def chargeActor : Actor :=
  { baseActor with
    current_state := State.Charging
    speed := 0
    compass := ⟨0, 0⟩
    initial_charge_compass := ⟨1, 0⟩
    initial_charge_time := 0 }

/-- C5 (code bug), the code evaluated at the failing input: a
`charge_movement` call at wall-clock second 1 — before the charge timer
expires and with no obstacle hit — restores the captured charge compass but
leaves the speed at `0` instead of forcing `DEFAULT_SPEED_FAST`: the guard
`self.speed == self.DEFAULT_SPEED or self.DEFAULT_SPEED_ZERO` is
`(0 == 1) or 0`, which is falsy, so `move` is called with speed `0` and the
actor does not advance at all. -/
theorem charge_movement_keeps_speed_zero :
    NPC.charge_movement 1 chargeActor = some { chargeActor with compass := ⟨1, 0⟩ } ∧
    ({ chargeActor with compass := ⟨1, 0⟩ } : Actor).speed = 0 ∧
    ({ chargeActor with compass := ⟨1, 0⟩ } : Actor).speed ≠ DEFAULT_SPEED_FAST ∧
    ({ chargeActor with compass := ⟨1, 0⟩ } : Actor).rect = chargeActor.rect ∧
    ({ chargeActor with compass := ⟨1, 0⟩ } : Actor).compass =
      chargeActor.initial_charge_compass := by
  refine ⟨?_, rfl, by norm_num [DEFAULT_SPEED_FAST, chargeActor, baseActor], rfl, rfl⟩
  norm_num [NPC.charge_movement, chargeActor, baseActor, NPC.is_timer_finished,
    intTrunc, Int.floor_one, NPC.charged_into_obstacle, NPC.reset_charge_variables,
    NPC.set_state_default, Tile.move, Tile.update_movement_tracker, Tile._move_up,
    Tile._move_down, Tile._move_left, Tile._move_right, Rect.move_ip, Rect.setCenter,
    Rect.centerx, Rect.centery, DEFAULT_TIMER_VALUE, DEFAULT_SPEED, DEFAULT_SPEED_ZERO,
    DEFAULT_SPEED_FAST, CHARGING_TIMER_SECONDS, Direction.up, Direction.down,
    Direction.left, Direction.right]

/-!
## C4 — patrol direction flips on the 3-second timer
-/

theorem collision_handler_no_obstacles (now : ℚ) (a : Actor)
    (h : a.obstacle_sprites = []) : NPC.collision_handler now a = a := by
  simp [NPC.collision_handler, NPC.collision_detection,
    Character.collision_detection_with, h, Rect.collidelistall, Character.emptyReport]

/-- C4: for an NPC in `Patrol` with compass `(1, 0)` whose `_last_time_stored`
timestamp is the (integer, per its declared type) second `t`, and no obstacles
in contact, a `patrol_movement` call at any time up to `t + 2` leaves the
compass at `(1, 0)` (and the stamp and state untouched), while the first call
at or after `t + 3` flips the sign of the compass x-component to `-1`. -/
theorem patrol_flip_timing (a : Actor) (t : ℤ) (now : ℚ)
    (hstate : a.current_state = State.Patrol)
    (hcomp : a.compass = ⟨1, 0⟩)
    (ht : a.last_time_stored = (t : ℚ))
    (ht0 : 0 ≤ t)
    (hobs : a.obstacle_sprites = [])
    (htnow : (t : ℚ) ≤ now) :
    (now ≤ (t : ℚ) + 2 →
      (NPC.patrol_movement now a).map Actor.compass = some ⟨1, 0⟩ ∧
      (NPC.patrol_movement now a).map Actor.last_time_stored = some ((t : ℚ)) ∧
      (NPC.patrol_movement now a).map Actor.current_state = some State.Patrol) ∧
    ((t : ℚ) + 3 ≤ now →
      (NPC.patrol_movement now a).map Actor.compass = some ⟨-1, 0⟩) := by
  have hnow0 : (0 : ℚ) ≤ now := le_trans (by exact_mod_cast ht0) htnow
  have hne : a.last_time_stored ≠ ((DEFAULT_TIMER_VALUE : ℤ) : ℚ) := by
    rw [ht, DEFAULT_TIMER_VALUE]
    intro hc
    have hti : t = (-1 : ℤ) := by exact_mod_cast hc
    omega
  -- the actor after the speed normalization step
  set a1 : Actor := if a.speed ≠ DEFAULT_SPEED then { a with speed := DEFAULT_SPEED } else a
    with ha1
  have h1lt : a1.last_time_stored = a.last_time_stored := by
    rw [ha1]; split_ifs <;> rfl
  have h1c : a1.compass = a.compass := by rw [ha1]; split_ifs <;> rfl
  have h1s : a1.current_state = a.current_state := by rw [ha1]; split_ifs <;> rfl
  have h1o : a1.obstacle_sprites = a.obstacle_sprites := by rw [ha1]; split_ifs <;> rfl
  constructor
  · intro hnow2
    have hlt : (intTrunc now : ℚ) < a.last_time_stored + ((3 : ℤ) : ℚ) := by
      rw [ht, intTrunc, if_pos hnow0]
      have h3 := Int.floor_le now
      push_cast
      linarith
    have htimer : NPC.is_timer_finished a1.last_time_stored 3 now = some false := by
      rw [h1lt, NPC.is_timer_finished, if_neg hne, Option.some_inj]
      exact decide_eq_false (not_le.mpr hlt)
    have heval : NPC.patrol_movement now a = some (Tile.move a1.speed a1) := by
      rw [NPC.patrol_movement, if_pos hstate]
      simp only [← ha1, htimer, Bool.false_eq_true, if_false,
        collision_handler_no_obstacles now a1 (h1o.trans hobs)]
    rw [heval]
    have hp := Tile_move_preserves a1.speed a1
    refine ⟨?_, ?_, ?_⟩ <;> simp only [Option.map_some']
    · rw [hp.1, h1c, hcomp]
    · rw [hp.2.2.1, h1lt, ht]
    · rw [hp.2.1, h1s, hstate]
  · intro hnow3
    have hge : a.last_time_stored + ((3 : ℤ) : ℚ) ≤ (intTrunc now : ℚ) := by
      rw [ht, intTrunc, if_pos hnow0]
      have h2 : t + 3 ≤ ⌊now⌋ := by
        rw [Int.le_floor]
        push_cast
        linarith
      exact_mod_cast h2
    have htimer : NPC.is_timer_finished a1.last_time_stored 3 now = some true := by
      rw [h1lt, NPC.is_timer_finished, if_neg hne, Option.some_inj]
      exact decide_eq_true hge
    -- the actor after the compass flip
    have hflip : (if a1.compass.x ≠ 1 ∨ a1.compass.x ≠ 1 then (1 : ℚ)
        else a1.compass.x * (-1)) = -1 := by
      rw [h1c, hcomp]
      norm_num
    have heval : NPC.patrol_movement now a =
        some (Tile.move
          ({ a1 with compass := ⟨-1, 0⟩, last_time_stored := now } : Actor).speed
          ({ a1 with compass := ⟨-1, 0⟩, last_time_stored := now } : Actor)) := by
      rw [NPC.patrol_movement, if_pos hstate]
      simp only [← ha1, htimer, eq_self_iff_true, if_true, hflip,
        collision_handler_no_obstacles now
          ({ a1 with compass := ⟨-1, 0⟩, last_time_stored := now } : Actor)
          (h1o.trans hobs)]
    rw [heval]
    have hp := Tile_move_preserves
      ({ a1 with compass := ⟨-1, 0⟩, last_time_stored := now } : Actor).speed
      ({ a1 with compass := ⟨-1, 0⟩, last_time_stored := now } : Actor)
    simp only [Option.map_some']
    rw [hp.1]

/-- C4 witness: the theorem applied to a patrolling actor stamped at `t = 0`,
evaluated at `now = 2` (no flip) and at `now = 3` (flip). -/
theorem patrol_flip_timing_witness :
    ({ baseActor with current_state := State.Patrol } : Actor).current_state =
        State.Patrol ∧
    ({ baseActor with current_state := State.Patrol } : Actor).compass = ⟨1, 0⟩ ∧
    ({ baseActor with current_state := State.Patrol } : Actor).last_time_stored =
        ((0 : ℤ) : ℚ) ∧
    ((3 : ℚ) ≤ (0 : ℚ) + 3 →
      (NPC.patrol_movement 3
          { baseActor with current_state := State.Patrol }).map Actor.compass =
        some ⟨-1, 0⟩) := by
  refine ⟨rfl, rfl, by norm_num [baseActor], ?_⟩
  intro h3
  have := (patrol_flip_timing { baseActor with current_state := State.Patrol } 0 3
    rfl rfl (by norm_num [baseActor]) le_rfl rfl (by norm_num)).2
  exact this (by norm_num)

/-!
## C6 — tracking escalates on obstacle contact, not on radar dwell
-/

/-- An NPC in `Tracking` with a live target sprite well inside its radar, an
empty obstacle group, and a dwell timer stamped at second 0. -/
def trackScenario : Track.TrackActor :=
  { rect := ⟨0, 0, 16, 20⟩
    hitbox := ⟨0, 0, 16, 20⟩
    compass := (0, 0)
    speed := 3
    current_state := State.Tracking
    target_sprite := some ⟨⟨50, 0, 16, 20⟩, ⟨50, 0, 16, 20⟩⟩
    obstacle_sprites := []
    initial_tracking_time := 0
    initial_charge_time := -1
    initial_charge_compass := (0, 0) }

/-- C6 (code bug), the code evaluated at the failing input: at wall-clock
second 5 the 2-second dwell timer stamped at second 0 is long finished
(`is_timer_finished 0 2 5 = some true`), and the target sprite is still set,
yet `tracking_movement` does not escalate to `Charging`: the escalation is
gated on `collision_detection(self._obstacle_sprites)`, which is empty here,
so the call takes the reset branch — it stays in `Tracking`, erases the
target sprite and resets the dwell timer to the sentinel. -/
theorem tracking_gate_ignores_radar_dwell :
    NPC.is_timer_finished ((0 : ℤ) : ℚ) TRACKING_TIMER_SECONDS 5 = some true ∧
    (Track.tracking_movement 5 trackScenario).map Track.TrackActor.current_state =
      some State.Tracking ∧
    (Track.tracking_movement 5 trackScenario).map Track.TrackActor.current_state ≠
      some State.Charging ∧
    (Track.tracking_movement 5 trackScenario).map Track.TrackActor.initial_tracking_time =
      some DEFAULT_TIMER_VALUE ∧
    (Track.tracking_movement 5 trackScenario).map Track.TrackActor.target_sprite =
      some none ∧
    (Track.tracking_movement 5 trackScenario).map Track.TrackActor.speed =
      some DEFAULT_SPEED := by
  have hfloor : (⌊(5 : ℚ)⌋ : ℤ) = 5 := by
    norm_num
  have htimer : NPC.is_timer_finished ((0 : ℤ) : ℚ) TRACKING_TIMER_SECONDS 5 =
      some true := by
    norm_num [NPC.is_timer_finished, intTrunc, DEFAULT_TIMER_VALUE,
      TRACKING_TIMER_SECONDS, hfloor]
  have heval : Track.tracking_movement 5 trackScenario =
      some (Track.reset_charge_variables
        { trackScenario with
          speed := DEFAULT_SPEED_ZERO
          compass := Track.rotate_compass_value trackScenario.rect ⟨50, 0, 16, 20⟩
          initial_charge_compass :=
            Track.rotate_compass_value trackScenario.rect ⟨50, 0, 16, 20⟩ }) := by
    simp [Track.tracking_movement, trackScenario, Track.collision_detection,
      Rect.collidelistall, DEFAULT_SPEED_ZERO]
  refine ⟨htimer, ?_, ?_, ?_, ?_, ?_⟩ <;>
    rw [heval] <;>
    simp [Track.reset_charge_variables, trackScenario, DEFAULT_SPEED,
      DEFAULT_SPEED_ZERO, DEFAULT_TIMER_VALUE]

end M1W
